import Mathlib

/-!
# BirdSong extension — verification of the playback-orchestration core

Shallow embedding of the BirdSong browser extension's orchestration core:
the background message handlers (`src/util/messageHandlers.ts`), the play
control functions (`playControl`: `playNextWithWait`, `playNext`), the bird
search collaborator (`src/util/api.ts` and the `background.ts` fallback),
the state composition (`getFullState`), the startup resume policy
(`shouldResumePlayback`), and the offscreen audio worker
(`entrypoints/offscreen/offscreen.ts`).

Cross-context message sends, timer scheduling and storage writes are
modelled as explicit `Action` outputs; asynchronous collaborator results
are oracle inputs carried on the transition labels.
-/

namespace BirdSong

/-- `Bird` value object from `src/typeConst.ts` (final variant, with
`speciesCode`, optional media fields, and the optional `message` field used
by the error sentinel of `api.ts`). -/
structure Bird where
  commonName : String
  scientificName : String
  speciesCode : String
  audioUrl : String
  imageUrl : Option String := none
  videoUrl : Option String := none
  recordist : Option String := none
  location : Option String := none
  observedDate : Option String := none
  message : Option String := none
deriving Repr, DecidableEq

/-- `BackgroundState` from `src/util/messageHandlers.ts`: the orchestrator's
session state.  `waitingTimeout` holds the JS timer id (or `none` for
`null`); timestamps are naturals (ms). -/
structure BackgroundState where
  currentBird : Option Bird
  isPlaying : Bool
  isPaused : Bool
  region : String
  isWaiting : Bool
  waitingTimeout : Option Nat
  waitingStartTime : Option Nat
deriving Repr, DecidableEq

/-- The all-false/null initial session state. -/
def initBackgroundState : BackgroundState :=
  { currentBird := none
    isPlaying := false
    isPaused := false
    region := ""
    isWaiting := false
    waitingTimeout := none
    waitingStartTime := none }

/-- Observable side effects of the handlers: popup notifications
(`notifyPopup`), messages to the offscreen audio worker, storage writes
(`saveState`), and timer scheduling/cancellation. -/
inductive Action where
  | notify (event : String) (data : Option Bird)
  | searchQuery (region : String)
  | playAudioMsg (b : Bird)
  | stopAudioMsg
  | pauseAudioMsg
  | resumeAudioMsg
  | saveStateAct
  | setTimerAct (id : Nat) (delayMs : Nat)
  | clearTimerAct (id : Nat)
deriving Repr, DecidableEq

/-- `WAIT_NEXT_BIRD_TIME` from `src/typeConst.ts` (recorded in
`docs/OFFSCREEN_IMPLEMENTATION.md`: 60000 ms between tracks). -/
def WAIT_NEXT_BIRD_TIME : Nat := 60000

/-- JS truthiness of the stored timer id in
`if (state.isWaiting && state.waitingTimeout)`: `null` and `0` are falsy. -/
def timeoutTruthy : Option Nat → Bool
  | none => false
  | some n => n != 0

/-- Result shape of the `start` command:
`{success:true, bird}` or `{success:false, error}`. -/
structure StartResult where
  success : Bool
  bird : Option Bird
  error : Option String
deriving Repr, DecidableEq

/-- `handleStart` (`messageHandlers.ts`): set the session active and record
the region, then query the collaborator (its awaited result is the
`birdResult` oracle input); on a bird, record it, instruct playback, persist
and notify `birdChanged`; otherwise answer `{success:false, error}`. -/
def handleStart (s : BackgroundState) (msgRegion : Option String)
    (birdResult : Option Bird) : BackgroundState × List Action × StartResult :=
  let region := msgRegion.getD ""
  let s1 := { s with isPlaying := true, isPaused := false, region := region }
  match birdResult with
  | some bird =>
      ({ s1 with currentBird := some bird },
       [Action.searchQuery region, Action.playAudioMsg bird, Action.saveStateAct,
        Action.notify "birdChanged" (some bird)],
       { success := true, bird := some bird, error := none })
  | none =>
      (s1, [Action.searchQuery region],
       { success := false, bird := none, error := some "No birds found" })

/-- `handleStop` (`messageHandlers.ts`): clear the session; if waiting with
a live timer, cancel it, clear the waiting fields and notify
`waitingCancelled`; then instruct the worker to stop and persist. -/
def handleStop (s : BackgroundState) : BackgroundState × List Action :=
  let s1 := { s with isPlaying := false, isPaused := false, currentBird := none }
  if s1.isWaiting && timeoutTruthy s1.waitingTimeout then
    ({ s1 with isWaiting := false, waitingTimeout := none, waitingStartTime := none },
     [Action.clearTimerAct (s1.waitingTimeout.getD 0),
      Action.notify "waitingCancelled" none,
      Action.stopAudioMsg, Action.saveStateAct])
  else (s1, [Action.stopAudioMsg, Action.saveStateAct])

/-- `handlePause` (`messageHandlers.ts`): set `isPaused`, instruct the
worker to pause, persist. -/
def handlePause (s : BackgroundState) : BackgroundState × List Action :=
  ({ s with isPaused := true }, [Action.pauseAudioMsg, Action.saveStateAct])

/-- `handleResume` (`messageHandlers.ts`): clear `isPaused`, instruct the
worker to resume, persist. -/
def handleResume (s : BackgroundState) : BackgroundState × List Action :=
  ({ s with isPaused := false }, [Action.resumeAudioMsg, Action.saveStateAct])

/-- The continuation of `playNext` (and of the wait timer's callback) once
the awaited `searchBirdAudio` has answered: if a bird was found record it,
instruct playback, persist and notify `birdChanged`; otherwise nothing. -/
def playFound (s : BackgroundState) (birdResult : Option Bird) :
    BackgroundState × List Action :=
  match birdResult with
  | some bird =>
      ({ s with currentBird := some bird },
       [Action.playAudioMsg bird, Action.saveStateAct,
        Action.notify "birdChanged" (some bird)])
  | none => (s, [])

/-- `playNext` (`playControl`): query the collaborator with the current
region, then run `playFound` on its answer. -/
def playNext (s : BackgroundState) (birdResult : Option Bird) :
    BackgroundState × List Action :=
  let (s', acts) := playFound s birdResult
  (s', Action.searchQuery s.region :: acts)

/-- `playNextWithWait` (`playControl`), up to the `setTimeout` call: no-op
when already waiting, else set the waiting fields, notify `waitingStarted`
and arm the one-shot 60 s timer (fresh id `timerId`). -/
def playNextWithWait (s : BackgroundState) (now timerId : Nat) :
    BackgroundState × List Action :=
  if s.isWaiting then (s, [])
  else
    ({ s with isWaiting := true, waitingStartTime := some now,
              waitingTimeout := some timerId },
     [Action.notify "waitingStarted" none,
      Action.setTimerAct timerId WAIT_NEXT_BIRD_TIME])

/-- Synchronous prefix of the armed timer's callback (`playNextWithWait`'s
`setTimeout` body): clear the waiting fields before awaiting the search. -/
def waitTimerFire (s : BackgroundState) : BackgroundState :=
  { s with isWaiting := false, waitingTimeout := none, waitingStartTime := none }

/-- Offscreen lifecycle events received by `handleOffscreenEvent`. -/
inductive OffscreenEvent where
  | audioEnded
  | audioError
  | audioStarted
  | audioPaused
  | audioResumed
deriving Repr, DecidableEq

/-- `handleOffscreenEvent` (`messageHandlers.ts`): `audioEnded` enters the
wait-then-advance path and `audioError` advances immediately, both only
while the session is active and not paused; the remaining events resync the
flags and notify the popup.  `now`/`timerId` feed `playNextWithWait`;
`birdResult` is the collaborator's answer for the `playNext` path. -/
def handleOffscreenEvent (s : BackgroundState) (ev : OffscreenEvent)
    (now timerId : Nat) (birdResult : Option Bird) :
    BackgroundState × List Action :=
  match ev with
  | .audioEnded =>
      if s.isPlaying && !s.isPaused then playNextWithWait s now timerId else (s, [])
  | .audioError =>
      if s.isPlaying && !s.isPaused then playNext s birdResult else (s, [])
  | .audioStarted =>
      ({ s with isPlaying := true, isPaused := false },
       [Action.notify "audioStarted" s.currentBird])
  | .audioPaused =>
      ({ s with isPaused := true }, [Action.notify "audioPaused" none])
  | .audioResumed =>
      ({ s with isPlaying := true, isPaused := false },
       [Action.notify "audioResumed" none])

/-!
## System trace model

The orchestrator together with the host's timer queue.  Each message
handler runs atomically (the single-threaded event loop); the armed wait
timer and its in-flight callback (which suspends at `await searchBirdAudio`)
are tracked separately so that commands can interleave with them.
-/

/-- The orchestrator plus the host timer queue: at most one armed wait
timer (`playNextWithWait` schedules one at a time), plus the flag that a
fired callback is suspended awaiting its collaborator search.  `nextId`
generates fresh positive timer ids. -/
structure SysState where
  bg : BackgroundState
  armedTimer : Option Nat
  fetchInFlight : Bool
  nextId : Nat
deriving Repr, DecidableEq

/-- Initial system state: fresh orchestrator, no timer, no pending fetch. -/
def initSys : SysState :=
  { bg := initBackgroundState, armedTimer := none, fetchInFlight := false, nextId := 0 }

/-- Transition labels: popup commands, offscreen events (with their oracle
inputs: current time, collaborator answer) and the two halves of the wait
timer's life (fire, then the awaited search completing). -/
inductive Label where
  | cmdStart (msgRegion : Option String) (birdResult : Option Bird)
  | cmdStop
  | cmdPause
  | cmdResume
  | cmdNext (birdResult : Option Bird)
  | evAudio (ev : OffscreenEvent) (now : Nat) (birdResult : Option Bird)
  | timerFire
  | fetchDone (birdResult : Option Bird)
deriving Repr, DecidableEq

/-- Replay the timer effects of a handler's actions on the timer queue:
`clearTimeout` disarms the matching id, `setTimeout` arms the new timer. -/
def applyTimerActs (acts : List Action) (t : Option Nat) : Option Nat :=
  acts.foldl
    (fun cur a =>
      match a with
      | Action.clearTimerAct i => if cur = some i then none else cur
      | Action.setTimerAct i _ => some i
      | _ => cur)
    t

/-- One step of the system: run the handler the label selects (atomically),
apply its timer actions to the host's queue, and bump the id generator.
Firing a timer that is no longer armed, or completing a fetch that is not
in flight, does nothing — a cancelled timer never runs its callback. -/
def step (s : SysState) (l : Label) : SysState × List Action :=
  match l with
  | .cmdStart r birdResult =>
      let (bg', acts, _) := handleStart s.bg r birdResult
      ({ s with bg := bg', armedTimer := applyTimerActs acts s.armedTimer,
                nextId := s.nextId + 1 }, acts)
  | .cmdStop =>
      let (bg', acts) := handleStop s.bg
      ({ s with bg := bg', armedTimer := applyTimerActs acts s.armedTimer,
                nextId := s.nextId + 1 }, acts)
  | .cmdPause =>
      let (bg', acts) := handlePause s.bg
      ({ s with bg := bg', armedTimer := applyTimerActs acts s.armedTimer,
                nextId := s.nextId + 1 }, acts)
  | .cmdResume =>
      let (bg', acts) := handleResume s.bg
      ({ s with bg := bg', armedTimer := applyTimerActs acts s.armedTimer,
                nextId := s.nextId + 1 }, acts)
  | .cmdNext birdResult =>
      let (bg', acts) := playNext s.bg birdResult
      ({ s with bg := bg', armedTimer := applyTimerActs acts s.armedTimer,
                nextId := s.nextId + 1 }, acts)
  | .evAudio ev now birdResult =>
      let (bg', acts) := handleOffscreenEvent s.bg ev now (s.nextId + 1) birdResult
      ({ s with bg := bg', armedTimer := applyTimerActs acts s.armedTimer,
                nextId := s.nextId + 1 }, acts)
  | .timerFire =>
      match s.armedTimer with
      | some _ =>
          ({ s with bg := waitTimerFire s.bg, armedTimer := none,
                    fetchInFlight := true, nextId := s.nextId + 1 },
           [Action.searchQuery s.bg.region])
      | none => ({ s with nextId := s.nextId + 1 }, [])
  | .fetchDone birdResult =>
      if s.fetchInFlight then
        let (bg', acts) := playFound s.bg birdResult
        ({ s with bg := bg', armedTimer := applyTimerActs acts s.armedTimer,
                  fetchInFlight := false, nextId := s.nextId + 1 }, acts)
      else ({ s with nextId := s.nextId + 1 }, [])

/-- Run a list of labels from a state. -/
def run (s : SysState) : List Label → SysState
  | [] => s
  | l :: ls => run (step s l).1 ls

/-- All actions emitted while running a list of labels. -/
def runActs (s : SysState) : List Label → List Action
  | [] => []
  | l :: ls => (step s l).2 ++ runActs (step s l).1 ls

/-- Reachability from the fresh orchestrator by any command/event trace. -/
def Reachable (s : SysState) : Prop :=
  ∃ ls : List Label, run initSys ls = s

/-!
## Search collaborator (`src/util/api.ts` and the `background.ts` fallback)

Network responses are oracle inputs.  `getRecentObservations` and
`getMacaulayMedia` catch their own errors (returning `[]` resp. `null`), so
their results are plain values; `loadEBirdTaxonomy`, called inside
`searchBirdAudio`'s `try` block, may throw and is an `Except`.
-/

/-- eBird observation record (`BirdObservation` in `typeConst.ts`). -/
structure BirdObservation where
  speciesCode : String
  comName : String
  sciName : String
  locName : String
  obsDt : String
deriving Repr, DecidableEq

/-- Media bundle assembled by `getMacaulayMedia`. -/
structure MacaulayMedia where
  audioUrl : String
  imageUrl : Option String
  videoUrl : Option String
  recordist : Option String
deriving Repr, DecidableEq

/-- Oracle environment for one `searchBirdAudio` call of `api.ts`. -/
structure ApiEnv where
  /-- Result of `getRecentObservations` (that function catches its own
  errors and returns `[]`, so this is a plain list). -/
  observations : List BirdObservation
  /-- `loadEBirdTaxonomy`, mapping a species code to its taxonomy
  `commonName`; the load may throw. -/
  taxonomy : Except String (String → Option String)
  /-- `getMacaulayMedia` per species code (catches its own errors). -/
  media : String → Option MacaulayMedia
  /-- The `Math.random`-based shuffle of the observation list. -/
  shuffle : List BirdObservation → List BirdObservation

/-- The `notFoundObj` sentinel skeleton of `api.ts`'s `searchBirdAudio`. -/
def notFoundObj : Bird :=
  { commonName := "Error"
    scientificName := ""
    speciesCode := ""
    audioUrl := ""
    message := some "eBirdから観測データを取得できませんでした。地域を変更するか、しばらく時間をおいて再度お試しください。" }

/-- JS `a || b` on strings: empty string is falsy. -/
def jsOrStr (a : Option String) (b : String) : String :=
  match a with
  | some s => if s = "" then b else s
  | none => b

/-- First shuffled observation for which `getMacaulayMedia` yields media
(the retry loop of `searchBirdAudio`). -/
def firstWithMedia (media : String → Option MacaulayMedia) :
    List BirdObservation → Option (BirdObservation × MacaulayMedia)
  | [] => none
  | obs :: rest =>
      match media obs.speciesCode with
      | some m => some (obs, m)
      | none => firstWithMedia media rest

/-- The `try` block of `api.ts`'s `searchBirdAudio`: empty observations
yield the "no small birds" sentinel; otherwise load the taxonomy (which may
throw), shuffle, and return the first observation with media as a `Bird`
(taxonomy common name falling back to the observation's), or the "no audio
data" sentinel when none has media. -/
def searchBirdAudioInner (env : ApiEnv) : Except String (Option Bird) :=
  if env.observations.length = 0 then
    Except.ok (some { notFoundObj with
      message := some "体長30cm以下の鳥の観測データが見つかりませんでした。地域を変更するか、しばらく時間をおいて再度お試しください。" })
  else
    match env.taxonomy with
    | Except.error e => Except.error e
    | Except.ok taxonomyInfo =>
      match firstWithMedia env.media (env.shuffle env.observations) with
      | some (obs, media) =>
          Except.ok (some
            { commonName := jsOrStr (taxonomyInfo obs.speciesCode) obs.comName
              scientificName := obs.sciName
              speciesCode := obs.speciesCode
              audioUrl := media.audioUrl
              imageUrl := media.imageUrl
              videoUrl := media.videoUrl
              recordist := media.recordist
              location := some obs.locName
              observedDate := some obs.obsDt })
      | none =>
          Except.ok (some { notFoundObj with
            message := some "音声データが見つかりませんでした。しばらく時間をおいて再度お試しください。" })

/-- `searchBirdAudio` of `api.ts`: the `try` block with its `catch`, which
converts any thrown error into the message-carrying sentinel.  The declared
TS type is `Promise<Bird | null>`, hence the `Option`. -/
def searchBirdAudio (env : ApiEnv) : Option Bird :=
  match searchBirdAudioInner env with
  | Except.ok b => b
  | Except.error e =>
      some { notFoundObj with message := some ("エラーが発生しました: " ++ e) }

/-- One item of a Macaulay Library search response
(`data.results.content[i]` as read by `searchBirdAudioFallback`). -/
structure MacItem where
  commonName : Option String
  scientificName : Option String
  speciesCode : Option String
  mediaUrl : String
  previewUrl : Option String
  userDisplayName : Option String
  locationName : Option String
  observedDate : Option String
deriving Repr, DecidableEq

/-- Oracle environment for `searchBirdAudioFallback` (`background.ts`):
the fetched `results.content` list (the fetch/parse may throw), and the
`Math.random` draw for the index choice. -/
structure FallbackEnv where
  response : Except String (List MacItem)
  pick : Nat

/-- `searchBirdAudioFallback` (`background.ts`): direct Macaulay Library
search; `null` on an empty result set, `null` (via `catch`) on any thrown
error, else a random element converted to a `Bird` with `'Unknown'`/empty
defaults. -/
def searchBirdAudioFallback (env : FallbackEnv) : Option Bird :=
  match env.response with
  | Except.error _ => none
  | Except.ok items =>
      if h : items.length = 0 then none
      else
        let bird := items.get ⟨env.pick % items.length,
          Nat.mod_lt _ (Nat.pos_of_ne_zero h)⟩
        some
          { commonName := jsOrStr bird.commonName "Unknown"
            scientificName := jsOrStr bird.scientificName ""
            speciesCode := jsOrStr bird.speciesCode ""
            audioUrl := bird.mediaUrl
            imageUrl := bird.previewUrl
            videoUrl := none
            recordist := bird.userDisplayName
            location := bird.locationName
            observedDate := bird.observedDate }

/-!
## Offscreen audio worker (`entrypoints/offscreen/offscreen.ts`)
-/

/-- The live `HTMLAudioElement` as far as the worker reads it:  `paused`
flag and positions (ms). -/
structure AudioElem where
  paused : Bool
  currentTime : Nat
  duration : Nat
deriving Repr, DecidableEq

/-- Module state of the offscreen player: the audio element reference
(`null` when nothing is loaded) and the blob URL it is bound to. -/
structure OffscreenState where
  audioElement : Option AudioElem
  currentBlobUrl : Option String
deriving Repr, DecidableEq

/-- Events the worker sends to the background (`notifyBackground`). -/
inductive WorkerEvent where
  | audioStarted
  | audioEnded
  | audioError
  | audioPaused
  | audioResumed
deriving Repr, DecidableEq

/-- `pauseAudio` (`offscreen.ts`): pause and notify `audioPaused` only when
an element is loaded and not already paused; otherwise do nothing. -/
def pauseAudio (o : OffscreenState) : OffscreenState × List WorkerEvent :=
  match o.audioElement with
  | some e =>
      if !e.paused then
        ({ o with audioElement := some { e with paused := true } },
         [WorkerEvent.audioPaused])
      else (o, [])
  | none => (o, [])

/-- `resumeAudio` (`offscreen.ts`): call `play()` and notify `audioResumed`
on its success only when an element is loaded and paused; a rejected
`play()` (`playOk = false`) leaves the element paused and notifies
nothing; otherwise do nothing. -/
def resumeAudio (o : OffscreenState) (playOk : Bool) :
    OffscreenState × List WorkerEvent :=
  match o.audioElement with
  | some e =>
      if e.paused then
        if playOk then
          ({ o with audioElement := some { e with paused := false } },
           [WorkerEvent.audioResumed])
        else (o, [])
      else (o, [])
  | none => (o, [])

/-- `stopAudio` (`offscreen.ts`): pause, rewind to zero, drop the element
reference, and release the blob URL. -/
def stopAudio (_o : OffscreenState) : OffscreenState :=
  { audioElement := none, currentBlobUrl := none }

/-- The `getAudioState` reply of `offscreen.ts`.  `isPlaying` is the JS
value of `audioElement && !audioElement.paused` and `isPaused` of
`audioElement && audioElement.paused && audioElement.currentTime > 0`:
`null` (here `none`) when no element is loaded, a boolean otherwise. -/
structure RawAudioState where
  isPlayingF : Option Bool
  isPausedF : Option Bool
  currentTime : Nat
  duration : Nat
deriving Repr, DecidableEq

/-- The `getAudioState` message handler of `offscreen.ts`. -/
def getAudioState (o : OffscreenState) : RawAudioState :=
  { isPlayingF :=
      match o.audioElement with
      | none => none
      | some e => some (!e.paused)
    isPausedF :=
      match o.audioElement with
      | none => none
      | some e => if e.paused then some (decide (0 < e.currentTime)) else some false
    currentTime := (o.audioElement.map AudioElem.currentTime).getD 0
    duration := (o.audioElement.map AudioElem.duration).getD 0 }

/-!
## State composition (`background.ts` `getOffscreenState`/`getFullState`)
-/

/-- The neutral worker snapshot `getOffscreenState` falls back to after the
retry also fails: `{isPlaying:false, isPaused:false, currentTime:0,
duration:0}`. -/
def neutralSnapshot : RawAudioState :=
  { isPlayingF := some false, isPausedF := some false, currentTime := 0, duration := 0 }

/-- `getOffscreenState` (`background.ts` / `OffscreenManager`): first
attempt, on failure exactly one recreate-and-retry, on a second failure the
neutral snapshot.  Each attempt's outcome (the `sendMessage` reply, which
may itself be a non-object, hence `Option`) is an oracle input. -/
def getOffscreenState (attempt1 attempt2 : Except String (Option RawAudioState)) :
    Option RawAudioState :=
  match attempt1 with
  | Except.ok r => r
  | Except.error _ =>
      match attempt2 with
      | Except.ok r => r
      | Except.error _ => some neutralSnapshot

/-- One composed flag of `getFullState`:
`(ws && typeof field === 'boolean') ? (field || sessionFlag) : sessionFlag`. -/
def composeFlag (ws : Option RawAudioState) (field : RawAudioState → Option Bool)
    (sessionFlag : Bool) : Bool :=
  match ws with
  | some r =>
      match field r with
      | some b => b || sessionFlag
      | none => sessionFlag
  | none => sessionFlag

/-- The composite snapshot `getFullState` returns (`background.ts`). -/
structure FullState where
  isPlaying : Bool
  isPaused : Bool
  currentBird : Option Bird
  region : String
  audioState : Option RawAudioState
deriving Repr, DecidableEq

/-- `getFullState` (`background.ts`): fetch the worker state (with its one
retry) and OR each live boolean flag with the session's flag, keeping the
session flag alone when the worker field is not a boolean. -/
def getFullState (attempt1 attempt2 : Except String (Option RawAudioState))
    (s : BackgroundState) : FullState :=
  let offscreenState := getOffscreenState attempt1 attempt2
  { isPlaying := composeFlag offscreenState RawAudioState.isPlayingF s.isPlaying
    isPaused := composeFlag offscreenState RawAudioState.isPausedF s.isPaused
    currentBird := s.currentBird
    region := s.region
    audioState := offscreenState }

/-!
## Startup resume policy (`messageHandlers.ts` options manager)
-/

/-- User options record (`Options`). -/
structure Options where
  autoResume : Bool
deriving Repr, DecidableEq

/-- `StartupReason`: `'unknown'` is a service-worker kill/auto-restart;
`'startup'`/`'installed'` are deliberate browser or extension restarts. -/
inductive StartupReason where
  | unknown
  | startup
  | installed
deriving Repr, DecidableEq

/-- `shouldResumePlayback` (`messageHandlers.ts`): resume unconditionally
on a service-worker restart; follow the `autoResume` option on a browser
startup or install; otherwise do not resume. -/
def shouldResumePlayback (options : Options) (reason : StartupReason) : Bool :=
  if reason = StartupReason.unknown then true
  else if reason = StartupReason.startup || reason = StartupReason.installed then
    options.autoResume
  else false

/-- The persisted `playbackState` record. -/
structure PersistedState where
  isPlaying : Bool
  isPaused : Bool
  currentBird : Option Bird
  region : String
deriving Repr, DecidableEq

/-- Outcome of the startup restoration. -/
inductive RestoreOutcome where
  | stayIdle
  | alreadyPlaying
  | resumed
  | clearedToIdle
deriving Repr, DecidableEq

/-- Modelled from the spec: the modular background entrypoint's state
restoration block, which applies `shouldResumePlayback`, is not under
`src/` (only `shouldResumePlayback` itself is).  Per §4.1.3: with a
persisted active session, ask the worker for its live state first; if it is
already playing, just resync; if it is idle, resume exactly when
`shouldResumePlayback` says so, and otherwise clear the session to idle and
persist that clearing. -/
def restoreSession (persisted : PersistedState) (workerPlaying : Bool)
    (options : Options) (reason : StartupReason) :
    RestoreOutcome × PersistedState :=
  if persisted.isPlaying && persisted.currentBird.isSome then
    if workerPlaying then (RestoreOutcome.alreadyPlaying, persisted)
    else if shouldResumePlayback options reason then
      (RestoreOutcome.resumed, persisted)
    else
      (RestoreOutcome.clearedToIdle,
       { isPlaying := false, isPaused := false, currentBird := none,
         region := persisted.region })
  else (RestoreOutcome.stayIdle, persisted)

/-!
## Invariants and protocol guards
-/

/-- The spec's session invariant: `isPaused ⇒ isPlaying` and
`currentBird == null ⇒ ¬isPlaying`. -/
def SessionInv (b : BackgroundState) : Prop :=
  (b.isPaused = true → b.isPlaying = true) ∧
  (b.currentBird = none → b.isPlaying = false)

/-- The protocol discipline the UI and the worker enforce on the inputs the
orchestrator sees: `pause` is only issued (and `audioPaused` only emitted)
while a session is active; `audioStarted`/`audioResumed` only concern a
loaded bird; the wired collaborator (`api.ts`) never answers `null` to a
`start`. -/
def okLabel (s : SysState) : Label → Prop
  | .cmdPause => s.bg.isPlaying = true
  | .cmdStart _ birdResult => birdResult.isSome = true
  | .evAudio .audioPaused _ _ => s.bg.isPlaying = true
  | .evAudio .audioStarted _ _ => s.bg.currentBird.isSome = true
  | .evAudio .audioResumed _ _ => s.bg.currentBird.isSome = true
  | _ => True

/-- States reachable from the fresh orchestrator by traces respecting the
protocol discipline `okLabel`. -/
inductive GuardedReach : SysState → Prop
  | init : GuardedReach initSys
  | next (s : SysState) (l : Label) :
      GuardedReach s → okLabel s l → GuardedReach (step s l).1

/-- Linkage between the session's waiting fields and the host timer queue:
while waiting, the armed timer carries exactly the stored (positive) id;
while not waiting, no timer is armed and no id is stored. -/
def TimerInv (s : SysState) : Prop :=
  (s.bg.isWaiting = true →
     ∃ i, s.armedTimer = some i ∧ s.bg.waitingTimeout = some i ∧ 1 ≤ i) ∧
  (s.bg.isWaiting = false → s.armedTimer = none ∧ s.bg.waitingTimeout = none)

/-- Labels the system can still receive after a `stop`: everything except a
fresh `start`/`next` command and the `audioStarted`/`audioResumed` events
(the stopped worker has no element left to start or resume). -/
def PostStopLabel : Label → Prop
  | .cmdStart _ _ => False
  | .cmdNext _ => False
  | .evAudio .audioStarted _ _ => False
  | .evAudio .audioResumed _ _ => False
  | _ => True

/-- A stopped system: session inactive, no armed timer, no fetch in
flight. -/
def Quiescent (s : SysState) : Prop :=
  s.bg.isPlaying = false ∧ s.armedTimer = none ∧ s.fetchInFlight = false

/-- A concrete bird used by the witnesses. -/
def testBird : Bird :=
  { commonName := "Great Tit"
    scientificName := "Parus major"
    speciesCode := "gretit1"
    audioUrl := "https://example.org/a.mp3" }

/-- A concrete collaborator environment whose eBird result set is empty. -/
def emptyApiEnv : ApiEnv :=
  { observations := []
    taxonomy := Except.ok (fun _ => none)
    media := fun _ => none
    shuffle := id }

/-!
## Theorems
-/

/-- C4: for every region input, `handleStart` sets the session active and
queries the collaborator, answers `{success:true, bird}` exactly when the
collaborator yields a bird, and on a `null` answer returns
`{success:false, error:'No birds found'}` and sends no `playAudio`
instruction to the AudioWorker. -/
theorem handleStart_success_iff_bird (s : BackgroundState) (msgRegion : Option String)
    (birdResult : Option Bird) :
    (handleStart s msgRegion birdResult).1.isPlaying = true ∧
    Action.searchQuery (msgRegion.getD "") ∈ (handleStart s msgRegion birdResult).2.1 ∧
    ((handleStart s msgRegion birdResult).2.2.success = true ↔ birdResult.isSome = true) ∧
    (birdResult = none →
      (handleStart s msgRegion birdResult).2.2 =
        { success := false, bird := none, error := some "No birds found" } ∧
      ∀ b : Bird, Action.playAudioMsg b ∉ (handleStart s msgRegion birdResult).2.1) ∧
    (∀ b : Bird, birdResult = some b →
      (handleStart s msgRegion birdResult).2.2 =
        { success := true, bird := some b, error := none } ∧
      Action.playAudioMsg b ∈ (handleStart s msgRegion birdResult).2.1 ∧
      (handleStart s msgRegion birdResult).1.currentBird = some b) := by
  cases birdResult <;> simp [handleStart]

/-- Witness for C4: a start that finds the test bird succeeds; a start whose
collaborator answer is `null` fails. -/
theorem handleStart_success_iff_bird_witness :
    (handleStart initBackgroundState (some "JP") none).2.2.success = false ∧
    (handleStart initBackgroundState (some "JP") (some testBird)).2.2.success = true := by
  constructor
  · have h := handleStart_success_iff_bird initBackgroundState (some "JP") none
    rw [(h.2.2.2.1 rfl).1]
  · have h := handleStart_success_iff_bird initBackgroundState (some "JP") (some testBird)
    rw [(h.2.2.2.2 testBird rfl).1]

/-- C6: `getFullState` composes worker and session flags by OR
(`effective.isPlaying = workerState.isPlaying || session.isPlaying`, same
for `isPaused`); when the worker is unreachable even after the one
re-establish-and-retry cycle, the neutral snapshot is used and the
composite flags equal the session's alone (and `getFullState` still
returns a value — no error is propagated). -/
theorem getFullState_or_composition (a1 a2 : Except String (Option RawAudioState))
    (s : BackgroundState) :
    (∀ r wb wp, getOffscreenState a1 a2 = some r →
       r.isPlayingF = some wb → r.isPausedF = some wp →
       (getFullState a1 a2 s).isPlaying = (wb || s.isPlaying) ∧
       (getFullState a1 a2 s).isPaused = (wp || s.isPaused)) ∧
    (∀ e1 e2, a1 = Except.error e1 → a2 = Except.error e2 →
       getOffscreenState a1 a2 = some neutralSnapshot ∧
       (getFullState a1 a2 s).isPlaying = s.isPlaying ∧
       (getFullState a1 a2 s).isPaused = s.isPaused) ∧
    (∀ r, a1 = Except.ok r → getOffscreenState a1 a2 = r) ∧
    (∀ e1 r, a1 = Except.error e1 → a2 = Except.ok r →
       getOffscreenState a1 a2 = r) := by
  refine ⟨?_, ?_, ?_, ?_⟩
  · intro r wb wp hws hwb hwp
    constructor <;> simp [getFullState, composeFlag, hws, hwb, hwp]
  · intro e1 e2 h1 h2
    subst h1; subst h2
    refine ⟨rfl, ?_, ?_⟩ <;>
      simp [getFullState, getOffscreenState, composeFlag, neutralSnapshot]
  · intro r h1; subst h1; rfl
  · intro e1 r h1 h2; subst h1; subst h2; rfl

/-- Witness for C6: with both worker attempts failing, the composite flags
of the degraded snapshot equal the (initial) session's flags. -/
theorem getFullState_or_composition_witness :
    (getFullState (Except.error "send failed") (Except.error "retry failed")
      initBackgroundState).isPlaying = false ∧
    (getFullState (Except.error "send failed") (Except.error "retry failed")
      initBackgroundState).audioState = some neutralSnapshot := by
  have h := getFullState_or_composition (Except.error "send failed")
    (Except.error "retry failed") initBackgroundState
  have h2 := h.2.1 "send failed" "retry failed" rfl rfl
  exact ⟨h2.2.1.trans rfl, by simp [getFullState, h2.1]⟩

/-- C7: on `audioError` while the session is active and not paused the
orchestrator immediately issues a new collaborator search and (when a bird
is found) a new `playAudio` instruction, arming no timer; on `audioEnded`
it instead arms the 60 s timer and issues no immediate search or
`playAudio`; when the session is inactive or paused, `audioError` causes no
advance at all. -/
theorem audioError_immediate_advance (s : BackgroundState) (now tid : Nat)
    (birdResult : Option Bird) :
    (s.isPlaying = true → s.isPaused = false →
       (handleOffscreenEvent s OffscreenEvent.audioError now tid birdResult).2 =
         Action.searchQuery s.region :: (playFound s birdResult).2 ∧
       (∀ b, birdResult = some b →
          Action.playAudioMsg b ∈
            (handleOffscreenEvent s OffscreenEvent.audioError now tid birdResult).2) ∧
       (∀ i d, Action.setTimerAct i d ∉
          (handleOffscreenEvent s OffscreenEvent.audioError now tid birdResult).2) ∧
       (s.isWaiting = false →
          Action.setTimerAct tid WAIT_NEXT_BIRD_TIME ∈
            (handleOffscreenEvent s OffscreenEvent.audioEnded now tid birdResult).2 ∧
          (∀ r, Action.searchQuery r ∉
             (handleOffscreenEvent s OffscreenEvent.audioEnded now tid birdResult).2) ∧
          (∀ b, Action.playAudioMsg b ∉
             (handleOffscreenEvent s OffscreenEvent.audioEnded now tid birdResult).2))) ∧
    (¬(s.isPlaying = true ∧ s.isPaused = false) →
       handleOffscreenEvent s OffscreenEvent.audioError now tid birdResult = (s, [])) := by
  constructor
  · intro hp hq
    refine ⟨?_, ?_, ?_, ?_⟩
    · simp [handleOffscreenEvent, hp, hq, playNext]
    · intro b hb
      simp [handleOffscreenEvent, hp, hq, playNext, playFound, hb]
    · intro i d
      cases birdResult <;>
        simp [handleOffscreenEvent, hp, hq, playNext, playFound]
    · intro hw
      refine ⟨?_, ?_, ?_⟩ <;>
        simp [handleOffscreenEvent, hp, hq, playNextWithWait, hw]
  · intro hn
    have hcond : (s.isPlaying && !s.isPaused) = false := by
      cases hp : s.isPlaying
      · rfl
      · cases hq : s.isPaused
        · exact absurd ⟨hp, hq⟩ hn
        · simp
    simp [handleOffscreenEvent, hcond]

/-- Witness for C7: from an active unpaused session, `audioError` with a
found bird emits an immediate `playAudio`; `audioEnded` arms the 60 s
timer. -/
theorem audioError_immediate_advance_witness :
    Action.playAudioMsg testBird ∈
      (handleOffscreenEvent
        { initBackgroundState with isPlaying := true, currentBird := some testBird }
        OffscreenEvent.audioError 0 1 (some testBird)).2 ∧
    Action.setTimerAct 1 WAIT_NEXT_BIRD_TIME ∈
      (handleOffscreenEvent
        { initBackgroundState with isPlaying := true, currentBird := some testBird }
        OffscreenEvent.audioEnded 0 1 (some testBird)).2 := by
  have h := audioError_immediate_advance
    { initBackgroundState with isPlaying := true, currentBird := some testBird }
    0 1 (some testBird)
  have h1 := h.1 rfl rfl
  exact ⟨h1.2.1 testBird rfl, (h1.2.2.2 rfl).1⟩

/-- C8: the resume decision — a service-worker kill/recreate (reason
`unknown`) resumes unconditionally; a deliberate browser/application
restart (`startup`/`installed`) resumes iff the persisted `autoResume`
preference is true, and with `autoResume = false` the persisted active
session is cleared to idle instead of resumed. -/
theorem resume_policy_matrix (options : Options) (reason : StartupReason)
    (p : PersistedState) :
    shouldResumePlayback options StartupReason.unknown = true ∧
    shouldResumePlayback options StartupReason.startup = options.autoResume ∧
    shouldResumePlayback options StartupReason.installed = options.autoResume ∧
    (p.isPlaying = true → p.currentBird.isSome = true →
      (restoreSession p false options StartupReason.unknown).1 =
        RestoreOutcome.resumed ∧
      ((reason = StartupReason.startup ∨ reason = StartupReason.installed) →
         (options.autoResume = true →
            (restoreSession p false options reason).1 = RestoreOutcome.resumed) ∧
         (options.autoResume = false →
            (restoreSession p false options reason).1 = RestoreOutcome.clearedToIdle ∧
            (restoreSession p false options reason).2.isPlaying = false ∧
            (restoreSession p false options reason).2.currentBird = none))) := by
  refine ⟨rfl, rfl, rfl, ?_⟩
  intro hp hb
  constructor
  · simp [restoreSession, shouldResumePlayback, hp, hb]
  · intro hr
    constructor <;> intro ha <;> rcases hr with h | h <;> subst h <;>
      simp [restoreSession, shouldResumePlayback, hp, hb, ha]

/-- Witness for C8: a persisted active session with `autoResume = false` is
cleared on a deliberate startup but resumed after a service-worker kill. -/
theorem resume_policy_matrix_witness :
    (restoreSession
       { isPlaying := true, isPaused := false, currentBird := some testBird,
         region := "JP" } false { autoResume := false } StartupReason.startup).1 =
      RestoreOutcome.clearedToIdle ∧
    (restoreSession
       { isPlaying := true, isPaused := false, currentBird := some testBird,
         region := "JP" } false { autoResume := false } StartupReason.unknown).1 =
      RestoreOutcome.resumed := by
  have h := resume_policy_matrix { autoResume := false } StartupReason.startup
    { isPlaying := true, isPaused := false, currentBird := some testBird, region := "JP" }
  have h4 := h.2.2.2 rfl rfl
  exact ⟨((h4.2 (Or.inl rfl)).2 rfl).1, h4.1⟩

/-- C9: `pauseAudio`/`resumeAudio` are idempotent at the worker — a second
`pause` right after a `pause` changes nothing and emits no event (so two
pauses give the same observable state and the same single `audioPaused`
event as one), same for `resume`; with nothing loaded both are no-ops; and
the events are emitted exactly on an actual state transition. -/
theorem pause_resume_idempotent (o : OffscreenState) :
    pauseAudio (pauseAudio o).1 = ((pauseAudio o).1, []) ∧
    resumeAudio (resumeAudio o true).1 true = ((resumeAudio o true).1, []) ∧
    (o.audioElement = none →
       pauseAudio o = (o, []) ∧ ∀ playOk, resumeAudio o playOk = (o, [])) ∧
    (∀ e, o.audioElement = some e →
       ((pauseAudio o).2 = [WorkerEvent.audioPaused] ↔ e.paused = false) ∧
       ((pauseAudio o).2 = [] ↔ e.paused = true) ∧
       ((resumeAudio o true).2 = [WorkerEvent.audioResumed] ↔ e.paused = true)) := by
  refine ⟨?_, ?_, ?_, ?_⟩
  · rcases h : o.audioElement with _ | e
    · simp [pauseAudio, h]
    · cases hp : e.paused <;> simp [pauseAudio, h, hp]
  · rcases h : o.audioElement with _ | e
    · simp [resumeAudio, h]
    · cases hp : e.paused <;> simp [resumeAudio, h, hp]
  · intro h
    exact ⟨by simp [pauseAudio, h], fun playOk => by simp [resumeAudio, h]⟩
  · intro e h
    cases hp : e.paused <;> simp [pauseAudio, resumeAudio, h, hp]

/-- Witness for C9: with a loaded playing element, one `pause` emits the
single `audioPaused` event and a second `pause` is a no-op. -/
theorem pause_resume_idempotent_witness :
    (pauseAudio
       { audioElement := some { paused := false, currentTime := 5, duration := 30 },
         currentBlobUrl := some "blob:x" }).2 = [WorkerEvent.audioPaused] ∧
    pauseAudio
        (pauseAudio
          { audioElement := some { paused := false, currentTime := 5, duration := 30 },
            currentBlobUrl := some "blob:x" }).1 =
      ((pauseAudio
          { audioElement := some { paused := false, currentTime := 5, duration := 30 },
            currentBlobUrl := some "blob:x" }).1, []) := by
  have h := pause_resume_idempotent
    { audioElement := some { paused := false, currentTime := 5, duration := 30 },
      currentBlobUrl := some "blob:x" }
  refine ⟨?_, h.1⟩
  exact (h.2.2.2 { paused := false, currentTime := 5, duration := 30 } rfl).1.mpr rfl

/-- C10: when no media is loaded, the `getAudioState` reply carries `null`
(not `false`) in `isPlaying` and `isPaused`; `getFullState`'s
`typeof === 'boolean'` guard therefore discards the snapshot and the
composite flags equal the session's own values. -/
theorem getAudioState_null_when_unloaded (o : OffscreenState) (s : BackgroundState)
    (a2 : Except String (Option RawAudioState)) (h : o.audioElement = none) :
    (getAudioState o).isPlayingF = none ∧
    (getAudioState o).isPausedF = none ∧
    (getFullState (Except.ok (some (getAudioState o))) a2 s).isPlaying = s.isPlaying ∧
    (getFullState (Except.ok (some (getAudioState o))) a2 s).isPaused = s.isPaused := by
  refine ⟨?_, ?_, ?_, ?_⟩ <;>
    simp [getAudioState, h, getFullState, getOffscreenState, composeFlag]

/-- Witness for C10: the unloaded worker snapshot leaves an
`isPlaying = true` session flag intact. -/
theorem getAudioState_null_when_unloaded_witness :
    (getAudioState { audioElement := none, currentBlobUrl := none }).isPlayingF = none ∧
    (getFullState
        (Except.ok (some (getAudioState { audioElement := none, currentBlobUrl := none })))
        (Except.ok none)
        { initBackgroundState with isPlaying := true }).isPlaying = true := by
  have h := getAudioState_null_when_unloaded
    { audioElement := none, currentBlobUrl := none }
    { initBackgroundState with isPlaying := true } (Except.ok none) rfl
  exact ⟨h.1, h.2.2.1⟩

/-- Helper: every non-throwing branch of `searchBirdAudioInner` yields a
bird (possibly the sentinel), never `null`. -/
theorem searchBirdAudioInner_ok_isSome (env : ApiEnv) (bo : Option Bird)
    (h : searchBirdAudioInner env = Except.ok bo) : bo.isSome = true := by
  unfold searchBirdAudioInner at h
  split at h
  · cases h; rfl
  · split at h
    · simp at h
    · split at h
      · cases h; rfl
      · cases h; rfl

/-- C5 counterexample: with an empty eBird result set, `api.ts`'s
`searchBirdAudio` does not return `null` — it returns the `Bird`-shaped
sentinel carrying the user-facing message. -/
theorem searchBirdAudio_empty_counterexample :
    searchBirdAudio emptyApiEnv =
      some { notFoundObj with
        message := some "体長30cm以下の鳥の観測データが見つかりませんでした。地域を変更するか、しばらく時間をおいて再度お試しください。" } ∧
    searchBirdAudio emptyApiEnv ≠ none := by
  refine ⟨rfl, ?_⟩
  intro hc
  simp [searchBirdAudio, searchBirdAudioInner, emptyApiEnv] at hc

/-- C5 amended: `api.ts`'s `searchBirdAudio` never throws and never returns
`null` for any environment — every failure (empty result set, a thrown
internal error, or no media for any observation) is surfaced as the
`Bird`-shaped sentinel with a populated `message`; the `background.ts`
fallback `searchBirdAudioFallback` is the variant that returns `null` on
empty result sets and on internal errors (also never throwing). -/
theorem searchBirdAudio_never_rejects (env : ApiEnv) (fenv : FallbackEnv) :
    (∃ b : Bird, searchBirdAudio env = some b) ∧
    (env.observations = [] →
       searchBirdAudio env = some { notFoundObj with
         message := some "体長30cm以下の鳥の観測データが見つかりませんでした。地域を変更するか、しばらく時間をおいて再度お試しください。" }) ∧
    (∀ e, env.taxonomy = Except.error e → env.observations ≠ [] →
       searchBirdAudio env = some { notFoundObj with
         message := some ("エラーが発生しました: " ++ e) }) ∧
    (∀ taxo, env.taxonomy = Except.ok taxo → env.observations ≠ [] →
       firstWithMedia env.media (env.shuffle env.observations) = none →
       searchBirdAudio env = some { notFoundObj with
         message := some "音声データが見つかりませんでした。しばらく時間をおいて再度お試しください。" }) ∧
    (fenv.response = Except.ok [] → searchBirdAudioFallback fenv = none) ∧
    (∀ e, fenv.response = Except.error e → searchBirdAudioFallback fenv = none) := by
  refine ⟨?_, ?_, ?_, ?_, ?_, ?_⟩
  · rcases hinner : searchBirdAudioInner env with e | bo
    · exact ⟨{ notFoundObj with message := some ("エラーが発生しました: " ++ e) },
        by simp [searchBirdAudio, hinner]⟩
    · rcases Option.isSome_iff_exists.mp (searchBirdAudioInner_ok_isSome env bo hinner)
        with ⟨bird, rfl⟩
      exact ⟨bird, by simp [searchBirdAudio, hinner]⟩
  · intro h
    simp [searchBirdAudio, searchBirdAudioInner, h]
  · intro e htx hne
    have hlen : env.observations.length ≠ 0 := by
      simpa [List.length_eq_zero] using hne
    simp [searchBirdAudio, searchBirdAudioInner, hlen, htx]
  · intro taxo htx hne hfm
    have hlen : env.observations.length ≠ 0 := by
      simpa [List.length_eq_zero] using hne
    simp [searchBirdAudio, searchBirdAudioInner, hlen, htx, hfm]
  · intro h
    simp [searchBirdAudioFallback, h]
  · intro e h
    simp [searchBirdAudioFallback, h]

/-- Witness for C5 (amended): a taxonomy load failure over a non-empty
result set yields the error sentinel, and the fallback returns `null` on an
empty response. -/
theorem searchBirdAudio_never_rejects_witness :
    searchBirdAudio
        { observations :=
            [{ speciesCode := "gretit1", comName := "Great Tit",
               sciName := "Parus major", locName := "Tokyo", obsDt := "2024-01-01" }]
          taxonomy := Except.error "network down"
          media := fun _ => none
          shuffle := id } =
      some { notFoundObj with
        message := some ("エラーが発生しました: " ++ "network down") } ∧
    searchBirdAudioFallback { response := Except.ok [], pick := 0 } = none := by
  have h := searchBirdAudio_never_rejects
    { observations :=
        [{ speciesCode := "gretit1", comName := "Great Tit",
           sciName := "Parus major", locName := "Tokyo", obsDt := "2024-01-01" }]
      taxonomy := Except.error "network down"
      media := fun _ => none
      shuffle := id }
    { response := Except.ok [], pick := 0 }
  exact ⟨h.2.2.1 "network down" rfl (by simp), h.2.2.2.2.1 rfl⟩

/-- Helper: the session invariant only looks at `isPlaying`, `isPaused`
and `currentBird`, so it transfers along states agreeing on them. -/
theorem sessionInv_congr (b b' : BackgroundState)
    (hpl : b'.isPlaying = b.isPlaying) (hpa : b'.isPaused = b.isPaused)
    (hcb : b'.currentBird = b.currentBird) (h : SessionInv b) : SessionInv b' := by
  obtain ⟨h1, h2⟩ := h
  constructor
  · intro hp
    rw [hpl]
    exact h1 (hpa ▸ hp)
  · intro hc
    rw [hpl]
    exact h2 (hcb ▸ hc)

/-- Helper: `playNextWithWait` only touches the waiting fields. -/
theorem playNextWithWait_projections (s : BackgroundState) (now tid : Nat) :
    (playNextWithWait s now tid).1.isPlaying = s.isPlaying ∧
    (playNextWithWait s now tid).1.isPaused = s.isPaused ∧
    (playNextWithWait s now tid).1.currentBird = s.currentBird := by
  unfold playNextWithWait
  split <;> simp

/-- Helper: one guarded step preserves the session invariant. -/
theorem sessionInv_step (s : SysState) (l : Label)
    (hInv : SessionInv s.bg) (hok : okLabel s l) : SessionInv (step s l).1.bg := by
  obtain ⟨h1, h2⟩ := hInv
  cases l with
  | cmdStart r birdResult =>
      simp only [okLabel] at hok
      rcases birdResult with _ | b
      · simp at hok
      · refine ⟨fun _ => ?_, fun hc => ?_⟩
        · simp [step, handleStart]
        · simp [step, handleStart] at hc
  | cmdStop =>
      refine ⟨?_, ?_⟩ <;>
        · simp only [step, handleStop]
          split <;> simp
  | cmdPause =>
      simp only [okLabel] at hok
      refine ⟨?_, ?_⟩
      · intro _
        simpa [step, handlePause] using hok
      · intro hc
        have hnone : s.bg.currentBird = none := by
          simpa [step, handlePause] using hc
        have hfalse := h2 hnone
        rw [hok] at hfalse
        exact Bool.noConfusion hfalse
  | cmdResume =>
      refine ⟨?_, ?_⟩
      · intro h
        simp [step, handleResume] at h
      · intro hc
        have hnone : s.bg.currentBird = none := by
          simpa [step, handleResume] using hc
        simpa [step, handleResume] using h2 hnone
  | cmdNext birdResult =>
      rcases birdResult with _ | b
      · exact ⟨by simpa [step, playNext, playFound] using h1,
               by simpa [step, playNext, playFound] using h2⟩
      · refine ⟨?_, ?_⟩
        · intro h
          have hp : s.bg.isPaused = true := by
            simpa [step, playNext, playFound] using h
          simpa [step, playNext, playFound] using h1 hp
        · intro h
          simp [step, playNext, playFound] at h
  | evAudio ev now birdResult =>
      cases ev with
      | audioEnded =>
          refine sessionInv_congr s.bg _ ?_ ?_ ?_ ⟨h1, h2⟩ <;>
            · simp only [step, handleOffscreenEvent]
              split
              · simp [playNextWithWait_projections]
              · rfl
      | audioError =>
          simp only [step, handleOffscreenEvent]
          split
          · rcases birdResult with _ | b
            · exact ⟨by simpa [playNext, playFound] using h1,
                     by simpa [playNext, playFound] using h2⟩
            · refine ⟨?_, ?_⟩
              · intro h
                have hp : s.bg.isPaused = true := by
                  simpa [playNext, playFound] using h
                simpa [playNext, playFound] using h1 hp
              · intro h
                simp [playNext, playFound] at h
          · exact ⟨h1, h2⟩
      | audioStarted =>
          simp only [okLabel] at hok
          refine ⟨fun _ => ?_, ?_⟩
          · simp [step, handleOffscreenEvent]
          · intro hc
            have hnone : s.bg.currentBird = none := by
              simpa [step, handleOffscreenEvent] using hc
            rw [hnone] at hok
            exact Bool.noConfusion hok
      | audioPaused =>
          simp only [okLabel] at hok
          refine ⟨?_, ?_⟩
          · intro _
            simpa [step, handleOffscreenEvent] using hok
          · intro hc
            have hnone : s.bg.currentBird = none := by
              simpa [step, handleOffscreenEvent] using hc
            have hfalse := h2 hnone
            rw [hok] at hfalse
            exact Bool.noConfusion hfalse
      | audioResumed =>
          simp only [okLabel] at hok
          refine ⟨fun _ => ?_, ?_⟩
          · simp [step, handleOffscreenEvent]
          · intro hc
            have hnone : s.bg.currentBird = none := by
              simpa [step, handleOffscreenEvent] using hc
            rw [hnone] at hok
            exact Bool.noConfusion hok
  | timerFire =>
      refine sessionInv_congr s.bg _ ?_ ?_ ?_ ⟨h1, h2⟩ <;>
        · simp only [step]
          rcases s.armedTimer with _ | i <;> simp [waitTimerFire]
  | fetchDone birdResult =>
      by_cases hf : s.fetchInFlight
      · rcases birdResult with _ | b
        · exact ⟨by simpa [step, hf, playFound] using h1,
                 by simpa [step, hf, playFound] using h2⟩
        · refine ⟨?_, ?_⟩
          · intro h
            have hp : s.bg.isPaused = true := by
              simpa [step, hf, playFound] using h
            simpa [step, hf, playFound] using h1 hp
          · intro h
            simp [step, hf, playFound] at h
      · exact ⟨by simpa [step, hf] using h1, by simpa [step, hf] using h2⟩

/-- C1 counterexample: the claim quantifies over arbitrary command
sequences, but a `pause` command processed in the initial state (no active
session) yields a reachable state with `isPaused = true` and
`isPlaying = false`, violating `isPaused ⇒ isPlaying`. -/
theorem session_invariant_counterexample :
    (run initSys [Label.cmdPause]).bg.isPaused = true ∧
    (run initSys [Label.cmdPause]).bg.isPlaying = false := by
  constructor <;> rfl

/-- C1 (amended): the invariant `isPaused ⇒ isPlaying` and
`currentBird = null ⇒ ¬isPlaying` holds for every state reachable under the
protocol discipline (`okLabel`) that the UI and worker enforce: `pause` and
`audioPaused` only while the session is playing, `audioStarted` and
`audioResumed` only with a current bird, and `start` answered by the wired
collaborator (which never returns `null`). -/
theorem session_invariant_guarded (s : SysState) (h : GuardedReach s) :
    (s.bg.isPaused = true → s.bg.isPlaying = true) ∧
    (s.bg.currentBird = none → s.bg.isPlaying = false) := by
  induction h with
  | init => exact ⟨fun h => Bool.noConfusion h, fun _ => rfl⟩
  | next s' l hr hok ih => exact sessionInv_step s' l ih hok

/-- Witness for C1 (amended): the state after a guarded
start-then-pause trace satisfies the invariant. -/
theorem session_invariant_guarded_witness :
    ((step (step initSys (Label.cmdStart (some "JP") (some testBird))).1
        Label.cmdPause).1.bg.isPaused = true →
      (step (step initSys (Label.cmdStart (some "JP") (some testBird))).1
        Label.cmdPause).1.bg.isPlaying = true) ∧
    ((step (step initSys (Label.cmdStart (some "JP") (some testBird))).1
        Label.cmdPause).1.bg.currentBird = none →
      (step (step initSys (Label.cmdStart (some "JP") (some testBird))).1
        Label.cmdPause).1.bg.isPlaying = false) :=
  session_invariant_guarded _
    (GuardedReach.next _ Label.cmdPause
      (GuardedReach.next _ (Label.cmdStart (some "JP") (some testBird))
        GuardedReach.init (by simp [okLabel]))
      (by simp [okLabel, step, handleStart]))

/-- Helper: the timer linkage invariant transfers along states agreeing on
the waiting fields and the armed timer. -/
theorem timerInv_congr (s s' : SysState)
    (hw : s'.bg.isWaiting = s.bg.isWaiting)
    (ht : s'.bg.waitingTimeout = s.bg.waitingTimeout)
    (ha : s'.armedTimer = s.armedTimer)
    (h : TimerInv s) : TimerInv s' := by
  obtain ⟨h1, h2⟩ := h
  constructor
  · intro hwt
    obtain ⟨i, hai, hti, hi1⟩ := h1 (hw ▸ hwt)
    exact ⟨i, ha ▸ hai, ht ▸ hti, hi1⟩
  · intro hwf
    obtain ⟨hai, hti⟩ := h2 (hw ▸ hwf)
    exact ⟨ha ▸ hai, ht ▸ hti⟩

/-- Helper: every step preserves the timer linkage invariant. -/
theorem timerInv_step (s : SysState) (l : Label) (h : TimerInv s) :
    TimerInv (step s l).1 := by
  obtain ⟨hw, hnw⟩ := h
  cases l with
  | cmdStart r birdResult =>
      rcases birdResult with _ | b <;>
        exact timerInv_congr s _ (by simp [step, handleStart])
          (by simp [step, handleStart])
          (by simp [step, handleStart, applyTimerActs]) ⟨hw, hnw⟩
  | cmdStop =>
      cases hwv : s.bg.isWaiting
      · obtain ⟨ha, ht⟩ := hnw hwv
        constructor
        · intro hcontra
          simp [step, handleStop, hwv, ht, timeoutTruthy] at hcontra
        · intro _
          constructor <;>
            simp [step, handleStop, hwv, ht, timeoutTruthy, ha, applyTimerActs]
      · obtain ⟨i, hai, hti, hi1⟩ := hw hwv
        have htt : timeoutTruthy (some i) = true := by
          simp only [timeoutTruthy, bne_iff_ne, ne_eq]
          omega
        constructor
        · intro hcontra
          simp [step, handleStop, hwv, hti, htt] at hcontra
        · intro _
          constructor <;>
            simp [step, handleStop, hwv, hti, htt, hai, applyTimerActs]
  | cmdPause =>
      exact timerInv_congr s _ (by simp [step, handlePause])
        (by simp [step, handlePause])
        (by simp [step, handlePause, applyTimerActs]) ⟨hw, hnw⟩
  | cmdResume =>
      exact timerInv_congr s _ (by simp [step, handleResume])
        (by simp [step, handleResume])
        (by simp [step, handleResume, applyTimerActs]) ⟨hw, hnw⟩
  | cmdNext birdResult =>
      rcases birdResult with _ | b <;>
        exact timerInv_congr s _ (by simp [step, playNext, playFound])
          (by simp [step, playNext, playFound])
          (by simp [step, playNext, playFound, applyTimerActs]) ⟨hw, hnw⟩
  | evAudio ev now birdResult =>
      cases ev with
      | audioEnded =>
          simp only [step, handleOffscreenEvent]
          split
          · simp only [playNextWithWait]
            split
            · exact timerInv_congr s _ (by simp) (by simp)
                (by simp [applyTimerActs]) ⟨hw, hnw⟩
            · rename_i hnwv
              rw [Bool.not_eq_true] at hnwv
              constructor
              · intro _
                exact ⟨s.nextId + 1, by simp [applyTimerActs], by simp,
                  Nat.succ_le_succ (Nat.zero_le _)⟩
              · intro hcontra
                simp at hcontra
          · exact timerInv_congr s _ (by simp) (by simp)
              (by simp [applyTimerActs]) ⟨hw, hnw⟩
      | audioError =>
          simp only [step, handleOffscreenEvent]
          split
          · rcases birdResult with _ | b <;>
              exact timerInv_congr s _ (by simp [playNext, playFound])
                (by simp [playNext, playFound])
                (by simp [playNext, playFound, applyTimerActs]) ⟨hw, hnw⟩
          · exact timerInv_congr s _ (by simp) (by simp)
              (by simp [applyTimerActs]) ⟨hw, hnw⟩
      | audioStarted =>
          exact timerInv_congr s _ (by simp [step, handleOffscreenEvent])
            (by simp [step, handleOffscreenEvent])
            (by simp [step, handleOffscreenEvent, applyTimerActs]) ⟨hw, hnw⟩
      | audioPaused =>
          exact timerInv_congr s _ (by simp [step, handleOffscreenEvent])
            (by simp [step, handleOffscreenEvent])
            (by simp [step, handleOffscreenEvent, applyTimerActs]) ⟨hw, hnw⟩
      | audioResumed =>
          exact timerInv_congr s _ (by simp [step, handleOffscreenEvent])
            (by simp [step, handleOffscreenEvent])
            (by simp [step, handleOffscreenEvent, applyTimerActs]) ⟨hw, hnw⟩
  | timerFire =>
      rcases hat : s.armedTimer with _ | i
      · exact timerInv_congr s _ (by simp [step, hat]) (by simp [step, hat])
          (by simp [step, hat]) ⟨hw, hnw⟩
      · constructor
        · intro hcontra
          simp [step, hat, waitTimerFire] at hcontra
        · intro _
          constructor <;> simp [step, hat, waitTimerFire]
  | fetchDone birdResult =>
      by_cases hfv : s.fetchInFlight
      · rcases birdResult with _ | b <;>
          exact timerInv_congr s _ (by simp [step, hfv, playFound])
            (by simp [step, hfv, playFound])
            (by simp [step, hfv, playFound, applyTimerActs]) ⟨hw, hnw⟩
      · exact timerInv_congr s _ (by simp [step, hfv]) (by simp [step, hfv])
          (by simp [step, hfv]) ⟨hw, hnw⟩

/-- Helper: the timer linkage invariant holds along any run. -/
theorem timerInv_run (ls : List Label) : ∀ s, TimerInv s → TimerInv (run s ls) := by
  induction ls with
  | nil => intro s h; exact h
  | cons l ls ih => intro s h; exact ih (step s l).1 (timerInv_step s l h)

/-- Helper: the timer linkage invariant holds in every reachable state. -/
theorem timerInv_reachable (s : SysState) (h : Reachable s) : TimerInv s := by
  obtain ⟨ls, rfl⟩ := h
  exact timerInv_run ls initSys
    ⟨fun hc => Bool.noConfusion hc, fun _ => ⟨rfl, rfl⟩⟩

/-- Helper: from a quiescent (stopped) state, any post-stop step stays
quiescent and emits no `birdChanged`, no `playAudio` and no collaborator
search. -/
theorem quiescent_step (s : SysState) (l : Label)
    (hq : Quiescent s) (hl : PostStopLabel l) :
    Quiescent (step s l).1 ∧
    (∀ b, Action.notify "birdChanged" b ∉ (step s l).2) ∧
    (∀ b, Action.playAudioMsg b ∉ (step s l).2) ∧
    (∀ r, Action.searchQuery r ∉ (step s l).2) := by
  obtain ⟨hp, ha, hf⟩ := hq
  cases l with
  | cmdStart r birdResult => exact absurd hl (by simp [PostStopLabel])
  | cmdNext birdResult => exact absurd hl (by simp [PostStopLabel])
  | cmdStop =>
      refine ⟨⟨?_, ?_, ?_⟩, ?_, ?_, ?_⟩ <;>
        · simp only [step, handleStop]
          first
            | (split <;> simp [ha, hf, applyTimerActs])
            | simp [ha, hf, applyTimerActs]
  | cmdPause =>
      exact ⟨⟨by simpa [step, handlePause] using hp,
              by simpa [step, handlePause, applyTimerActs] using ha,
              by simpa [step, handlePause] using hf⟩,
             by simp [step, handlePause], by simp [step, handlePause],
             by simp [step, handlePause]⟩
  | cmdResume =>
      exact ⟨⟨by simpa [step, handleResume] using hp,
              by simpa [step, handleResume, applyTimerActs] using ha,
              by simpa [step, handleResume] using hf⟩,
             by simp [step, handleResume], by simp [step, handleResume],
             by simp [step, handleResume]⟩
  | evAudio ev now birdResult =>
      cases ev with
      | audioEnded =>
          refine ⟨⟨?_, ?_, ?_⟩, ?_, ?_, ?_⟩ <;>
            simp [step, handleOffscreenEvent, hp, ha, hf, applyTimerActs]
      | audioError =>
          refine ⟨⟨?_, ?_, ?_⟩, ?_, ?_, ?_⟩ <;>
            simp [step, handleOffscreenEvent, hp, ha, hf, applyTimerActs]
      | audioStarted => exact absurd hl (by simp [PostStopLabel])
      | audioPaused =>
          refine ⟨⟨?_, ?_, ?_⟩, ?_, ?_, ?_⟩ <;>
            simp [step, handleOffscreenEvent, hp, ha, hf, applyTimerActs]
      | audioResumed => exact absurd hl (by simp [PostStopLabel])
  | timerFire =>
      refine ⟨⟨?_, ?_, ?_⟩, ?_, ?_, ?_⟩ <;> simp [step, ha, hp, hf]
  | fetchDone birdResult =>
      refine ⟨⟨?_, ?_, ?_⟩, ?_, ?_, ?_⟩ <;> simp [step, hf, ha, hp]

/-- Helper: along any run of post-stop labels from a quiescent state, no
`birdChanged`, `playAudio` or collaborator search is ever emitted. -/
theorem quiescent_runActs (ls : List Label) : ∀ s, Quiescent s →
    (∀ l ∈ ls, PostStopLabel l) →
    (∀ b, Action.notify "birdChanged" b ∉ runActs s ls) ∧
    (∀ b, Action.playAudioMsg b ∉ runActs s ls) ∧
    (∀ r, Action.searchQuery r ∉ runActs s ls) := by
  induction ls with
  | nil =>
      intro s _ _
      refine ⟨?_, ?_, ?_⟩ <;> intro x hx <;> simp [runActs] at hx
  | cons l ls ih =>
      intro s hq hls
      have hstep := quiescent_step s l hq (hls l (List.mem_cons_self l ls))
      have hrest := ih (step s l).1 hstep.1
        (fun x hx => hls x (List.mem_cons_of_mem l hx))
      refine ⟨?_, ?_, ?_⟩
      · intro b hb
        rcases List.mem_append.mp (by simpa [runActs] using hb) with h | h
        · exact hstep.2.1 b h
        · exact hrest.1 b h
      · intro b hb
        rcases List.mem_append.mp (by simpa [runActs] using hb) with h | h
        · exact hstep.2.2.1 b h
        · exact hrest.2.1 b h
      · intro r hb
        rcases List.mem_append.mp (by simpa [runActs] using hb) with h | h
        · exact hstep.2.2.2 r h
        · exact hrest.2.2 r h

/-- C2: a `stop` processed in a reachable wait-gap state (waiting, timer
armed, its callback not yet started) cancels the pending timer before it
can act, sends `waitingCancelled`, clears `isWaiting`, and afterwards — for
any continuation of post-stop labels, i.e. every interleaving with the wait
timer — no `birdChanged` is ever emitted and no bird is fetched
(`searchQuery`) or played (`playAudioMsg`). -/
theorem stop_during_wait_cancels (s : SysState) (hr : Reachable s)
    (hw : s.bg.isWaiting = true) (hf : s.fetchInFlight = false) :
    Action.notify "waitingCancelled" none ∈ (step s Label.cmdStop).2 ∧
    (step s Label.cmdStop).1.bg.isWaiting = false ∧
    (∃ i, s.armedTimer = some i ∧
       Action.clearTimerAct i ∈ (step s Label.cmdStop).2) ∧
    (step s Label.cmdStop).1.armedTimer = none ∧
    (∀ ls, (∀ l ∈ ls, PostStopLabel l) →
       (∀ b, Action.notify "birdChanged" b ∉
          runActs (step s Label.cmdStop).1 ls) ∧
       (∀ b, Action.playAudioMsg b ∉ runActs (step s Label.cmdStop).1 ls) ∧
       (∀ r, Action.searchQuery r ∉ runActs (step s Label.cmdStop).1 ls)) := by
  obtain ⟨hwInv, _⟩ := timerInv_reachable s hr
  obtain ⟨i, hai, hti, hi1⟩ := hwInv hw
  have htt : timeoutTruthy (some i) = true := by
    simp only [timeoutTruthy, bne_iff_ne, ne_eq]
    omega
  have hq : Quiescent (step s Label.cmdStop).1 := by
    refine ⟨?_, ?_, ?_⟩
    · simp [step, handleStop, hw, hti, htt]
    · simp [step, handleStop, hw, hti, htt, hai, applyTimerActs]
    · simp [step, handleStop, hw, hti, htt, hf]
  refine ⟨?_, ?_, ⟨i, hai, ?_⟩, hq.2.1, ?_⟩
  · simp [step, handleStop, hw, hti, htt]
  · simp [step, handleStop, hw, hti, htt]
  · simp [step, handleStop, hw, hti, htt]
  · intro ls hls
    exact quiescent_runActs ls (step s Label.cmdStop).1 hq hls

/-- Witness for C2: the reachable wait-gap state reached by
start → clip ends (enters wait); the immediate `stop` clears `isWaiting`
and sends `waitingCancelled`. -/
theorem stop_during_wait_cancels_witness :
    (step (run initSys [Label.cmdStart (some "JP") (some testBird),
        Label.evAudio OffscreenEvent.audioEnded 1000 none])
      Label.cmdStop).1.bg.isWaiting = false ∧
    Action.notify "waitingCancelled" none ∈
      (step (run initSys [Label.cmdStart (some "JP") (some testBird),
          Label.evAudio OffscreenEvent.audioEnded 1000 none])
        Label.cmdStop).2 := by
  have h := stop_during_wait_cancels
    (run initSys [Label.cmdStart (some "JP") (some testBird),
       Label.evAudio OffscreenEvent.audioEnded 1000 none])
    ⟨[Label.cmdStart (some "JP") (some testBird),
      Label.evAudio OffscreenEvent.audioEnded 1000 none], rfl⟩
    rfl rfl
  exact ⟨h.2.1, h.1⟩

/-- C3: on `audioEnded` while active and unpaused the handler runs the
wait-then-advance algorithm: a no-op if already waiting (no second timer);
otherwise it sets `isWaiting`, records `waitingStartTime = now`, notifies
`waitingStarted` and schedules exactly one one-shot 60,000 ms timer; the
timer's firing clears the waiting fields and queries the collaborator with
the current region, and when a bird is found the completion records it as
`currentBird`, instructs the AudioWorker to play it, persists, and notifies
`birdChanged`. -/
theorem wait_then_advance (s : BackgroundState) (sys : SysState)
    (now tid i : Nat) (birdResult : Option Bird) :
    (s.isPlaying = true → s.isPaused = false →
       handleOffscreenEvent s OffscreenEvent.audioEnded now tid birdResult =
         playNextWithWait s now tid) ∧
    (s.isWaiting = true → playNextWithWait s now tid = (s, [])) ∧
    (s.isWaiting = false →
       (playNextWithWait s now tid).1 =
         { s with isWaiting := true, waitingStartTime := some now,
                  waitingTimeout := some tid } ∧
       (playNextWithWait s now tid).2 =
         [Action.notify "waitingStarted" none,
          Action.setTimerAct tid WAIT_NEXT_BIRD_TIME] ∧
       WAIT_NEXT_BIRD_TIME = 60000) ∧
    (sys.armedTimer = some i →
       (step sys Label.timerFire).1.bg = waitTimerFire sys.bg ∧
       (step sys Label.timerFire).1.bg.isWaiting = false ∧
       (step sys Label.timerFire).1.bg.waitingTimeout = none ∧
       (step sys Label.timerFire).1.bg.waitingStartTime = none ∧
       (step sys Label.timerFire).2 = [Action.searchQuery sys.bg.region]) ∧
    (∀ b, birdResult = some b →
       (playFound (waitTimerFire s) birdResult).1.currentBird = some b ∧
       (playFound (waitTimerFire s) birdResult).2 =
         [Action.playAudioMsg b, Action.saveStateAct,
          Action.notify "birdChanged" (some b)]) := by
  refine ⟨?_, ?_, ?_, ?_, ?_⟩
  · intro hp hq
    simp [handleOffscreenEvent, hp, hq]
  · intro hw
    simp [playNextWithWait, hw]
  · intro hw
    refine ⟨?_, ?_, rfl⟩ <;> simp [playNextWithWait, hw]
  · intro hat
    refine ⟨?_, ?_, ?_, ?_, ?_⟩ <;> simp [step, hat, waitTimerFire]
  · intro b hb
    subst hb
    exact ⟨rfl, rfl⟩

/-- Witness for C3: concrete wait-gap entry and timer completion. -/
theorem wait_then_advance_witness :
    (playNextWithWait initBackgroundState 1000 7).1.isWaiting = true ∧
    (playFound (waitTimerFire (playNextWithWait initBackgroundState 1000 7).1)
        (some testBird)).1.currentBird = some testBird := by
  have h := wait_then_advance initBackgroundState initSys 1000 7 0 (some testBird)
  have h3 := (h.2.2.1 rfl).1
  have h5 := wait_then_advance (playNextWithWait initBackgroundState 1000 7).1
    initSys 1000 7 0 (some testBird)
  exact ⟨by rw [h3], (h5.2.2.2.2 testBird rfl).1⟩

end BirdSong
